import Mathlib

/-!
Verification of the heating-load calculator (`Heizlast_Alt.py`).

The numeric core consists of two pure functions:
`calculate_heating_demand` (simple volumetric estimate) and
`calculate_heating_demand_detailed` (envelope-based estimate for a
rectangular-footprint building with a gable roof).  Python floats are
modelled as real numbers; `math.radians` and `math.cos` become
`Real.pi`-based conversion and `Real.cos`.  Each definition below mirrors
one line (or one `let` binding) of the source.
-/

/-- The ridge-axis selector `first_achse`: the Python code compares the
string argument against `"A"` and treats everything else as `"B"`. -/
inductive Axis where
  | A
  | B

/-- `math.radians(x) = x * pi / 180`. -/
noncomputable def radians (x : ℝ) : ℝ := x * Real.pi / 180

/-- Source line 17: `return volume * heat_loss_factor * delta_t / 1000`. -/
noncomputable def calculate_heating_demand
    (volume heat_loss_factor delta_t : ℝ) : ℝ :=
  volume * heat_loss_factor * delta_t / 1000

/-- Source line 42: `grundflaeche = length_a * length_b * number_of_floors`. -/
noncomputable def grundflaeche (length_a length_b : ℝ)
    (number_of_floors : ℕ) : ℝ :=
  length_a * length_b * number_of_floors

/-- Source lines 45-48: the roof area, projecting the dimension
perpendicular to the ridge axis onto the sloped plane. -/
noncomputable def dach_flaeche (length_a length_b roof_pitch : ℝ)
    (first_achse : Axis) : ℝ :=
  match first_achse with
  | Axis.A => (length_b / Real.cos (radians roof_pitch)) * length_a
  | Axis.B => (length_a / Real.cos (radians roof_pitch)) * length_b

/-- Source line 51:
`wandflaeche = (length_a + length_b) * room_height * number_of_floors - area_window`. -/
noncomputable def wandflaeche (length_a length_b room_height : ℝ)
    (number_of_floors : ℕ) (area_window : ℝ) : ℝ :=
  (length_a + length_b) * room_height * number_of_floors - area_window

/-- Source line 54: `heat_loss_wand = u_wand * wandflaeche * delta_t/1000.`. -/
noncomputable def heat_loss_wand (u_wand length_a length_b room_height : ℝ)
    (number_of_floors : ℕ) (area_window delta_t : ℝ) : ℝ :=
  u_wand * wandflaeche length_a length_b room_height number_of_floors area_window
    * delta_t / 1000

/-- Source line 55: `heat_loss_roof = u_roof * dach_flaeche * delta_t/1000.`. -/
noncomputable def heat_loss_roof (u_roof length_a length_b roof_pitch : ℝ)
    (first_achse : Axis) (delta_t : ℝ) : ℝ :=
  u_roof * dach_flaeche length_a length_b roof_pitch first_achse * delta_t / 1000

/-- Source line 56:
`heat_loss_floor = u_floor * grundflaeche * delta_t /number_of_floors/1000./number_of_floors`. -/
noncomputable def heat_loss_floor (u_floor length_a length_b : ℝ)
    (number_of_floors : ℕ) (delta_t : ℝ) : ℝ :=
  u_floor * grundflaeche length_a length_b number_of_floors * delta_t
    / number_of_floors / 1000 / number_of_floors

/-- Source line 57: `heat_loss_window = u_window * area_window * delta_t/1000.`. -/
noncomputable def heat_loss_window (u_window area_window delta_t : ℝ) : ℝ :=
  u_window * area_window * delta_t / 1000

/-- Source line 58:
`heat_loss_infiltration = infiltration_factor * delta_t * grundflaeche/1000.`. -/
noncomputable def heat_loss_infiltration (infiltration_factor length_a length_b : ℝ)
    (number_of_floors : ℕ) (delta_t : ℝ) : ℝ :=
  infiltration_factor * delta_t * grundflaeche length_a length_b number_of_floors / 1000

/-- Source line 60: the hull loss, the sum of the wall, roof, floor and
window components. -/
noncomputable def heat_loss_hull (length_a length_b room_height : ℝ)
    (number_of_floors : ℕ) (roof_pitch : ℝ) (first_achse : Axis)
    (u_wand u_roof u_floor delta_t u_window area_window : ℝ) : ℝ :=
  heat_loss_wand u_wand length_a length_b room_height number_of_floors area_window delta_t
    + heat_loss_roof u_roof length_a length_b roof_pitch first_achse delta_t
    + heat_loss_floor u_floor length_a length_b number_of_floors delta_t
    + heat_loss_window u_window area_window delta_t

/-- Source line 61: `total_heat_loss = heat_loss_hull + heat_loss_infiltration`. -/
noncomputable def total_heat_loss (length_a length_b room_height : ℝ)
    (number_of_floors : ℕ) (roof_pitch : ℝ) (first_achse : Axis)
    (u_wand u_roof u_floor infiltration_factor delta_t u_window area_window : ℝ) : ℝ :=
  heat_loss_hull length_a length_b room_height number_of_floors roof_pitch first_achse
      u_wand u_roof u_floor delta_t u_window area_window
    + heat_loss_infiltration infiltration_factor length_a length_b number_of_floors delta_t

/-- Source lines 19-67: the detailed calculator.  The Python function
returns the tuple `(total_heat_loss, heat_loss_infiltration,
heat_loss_hull, dict)` where the dict carries `Grundfläche`,
`Dachfläche` and `Wandfläche`; the dict is modelled as an inner triple
in that key order. -/
noncomputable def calculate_heating_demand_detailed
    (length_a length_b room_height : ℝ) (number_of_floors : ℕ)
    (roof_pitch : ℝ) (first_achse : Axis)
    (u_wand u_roof u_floor infiltration_factor delta_t u_window area_window : ℝ) :
    ℝ × ℝ × ℝ × (ℝ × ℝ × ℝ) :=
  (total_heat_loss length_a length_b room_height number_of_floors roof_pitch first_achse
      u_wand u_roof u_floor infiltration_factor delta_t u_window area_window,
   heat_loss_infiltration infiltration_factor length_a length_b number_of_floors delta_t,
   heat_loss_hull length_a length_b room_height number_of_floors roof_pitch first_achse
      u_wand u_roof u_floor delta_t u_window area_window,
   (grundflaeche length_a length_b number_of_floors,
    dach_flaeche length_a length_b roof_pitch first_achse,
    wandflaeche length_a length_b room_height number_of_floors area_window))

/-- A record of default thermal properties, as the preset table hands out. -/
structure ThermalPropertiesDefaults where
  u_wall : ℚ
  u_roof : ℚ
  u_floor : ℚ
  u_window : ℚ
  infiltration_coefficient : ℚ

/-- The `Teilsaniert` preset record (partially renovated building). -/
def teilsaniertDefaults : ThermalPropertiesDefaults :=
  ⟨1/2, 1/2, 1/2, 13/10, 1/10⟩

/-- Modelled from the spec: the repository source under `src/` contains no
preset table, only the UI sliders with default values; the spec's
`PresetTable.lookup(name)` returns a fixed record of
`{u_wall, u_roof, u_floor, u_window, infiltration_coefficient}` for each of
the enumerated building-standard labels `"Altbau"`, `"Teilsaniert"`,
`"Neubau"`, `"Passivhaus"`, and every unknown name falls back to the
`"Teilsaniert"` entry rather than erroring.  The numeric values are
representative (the spec gives none); the claim under test concerns only
the fallback behaviour. -/
def PresetTable.lookup (name : String) : ThermalPropertiesDefaults :=
  if name = "Altbau" then ⟨2, 2, 2, 28/5, 1/5⟩
  else if name = "Teilsaniert" then teilsaniertDefaults
  else if name = "Neubau" then ⟨1/5, 1/5, 1/5, 13/10, 1/25⟩
  else if name = "Passivhaus" then ⟨1/10, 1/10, 1/10, 3/5, 1/100⟩
  else teilsaniertDefaults

/-- Claim C9: the simple estimator returns exactly
volume × heat_loss_factor × delta_t / 1000. -/
theorem C9_simple_estimator_formula (volume heat_loss_factor delta_t : ℝ) :
    calculate_heating_demand volume heat_loss_factor delta_t
      = volume * heat_loss_factor * delta_t / 1000 := rfl

/-- Claim C8: the returned grand total equals the returned hull total plus
the returned infiltration component, and the hull total is the sum of the
wall, roof, floor and window components. -/
theorem C8_grand_total_is_hull_plus_infiltration
    (length_a length_b room_height : ℝ) (number_of_floors : ℕ)
    (roof_pitch : ℝ) (first_achse : Axis)
    (u_wand u_roof u_floor infiltration_factor delta_t u_window area_window : ℝ) :
    (calculate_heating_demand_detailed length_a length_b room_height number_of_floors
        roof_pitch first_achse u_wand u_roof u_floor infiltration_factor delta_t
        u_window area_window).1
      = (calculate_heating_demand_detailed length_a length_b room_height number_of_floors
          roof_pitch first_achse u_wand u_roof u_floor infiltration_factor delta_t
          u_window area_window).2.2.1
        + (calculate_heating_demand_detailed length_a length_b room_height number_of_floors
            roof_pitch first_achse u_wand u_roof u_floor infiltration_factor delta_t
            u_window area_window).2.1
      ∧ (calculate_heating_demand_detailed length_a length_b room_height number_of_floors
          roof_pitch first_achse u_wand u_roof u_floor infiltration_factor delta_t
          u_window area_window).2.2.1
        = heat_loss_wand u_wand length_a length_b room_height number_of_floors
            area_window delta_t
          + heat_loss_roof u_roof length_a length_b roof_pitch first_achse delta_t
          + heat_loss_floor u_floor length_a length_b number_of_floors delta_t
          + heat_loss_window u_window area_window delta_t :=
  ⟨rfl, rfl⟩

/-- Claim C10: swapping `length_a` and `length_b` (with the ridge axis and
all other inputs fixed) leaves every output of the detailed calculator
unchanged. -/
theorem C10_swap_lengths_symmetric
    (length_a length_b room_height : ℝ) (number_of_floors : ℕ)
    (roof_pitch : ℝ) (first_achse : Axis)
    (u_wand u_roof u_floor infiltration_factor delta_t u_window area_window : ℝ) :
    calculate_heating_demand_detailed length_a length_b room_height number_of_floors
        roof_pitch first_achse u_wand u_roof u_floor infiltration_factor delta_t
        u_window area_window
      = calculate_heating_demand_detailed length_b length_a room_height number_of_floors
          roof_pitch first_achse u_wand u_roof u_floor infiltration_factor delta_t
          u_window area_window := by
  cases first_achse <;>
    simp only [calculate_heating_demand_detailed, total_heat_loss, heat_loss_hull,
      heat_loss_wand, heat_loss_roof, heat_loss_floor, heat_loss_window,
      heat_loss_infiltration, wandflaeche, grundflaeche, dach_flaeche,
      Prod.mk.injEq] <;>
    exact ⟨by ring, by ring, by ring, by ring, by ring, by ring⟩

/-- Claim C6 counterexample: at the spec's own example (length_a = 10,
length_b = 5, roof_pitch = 30), the two ridge-axis choices give the SAME
roof area, contradicting the claim that they differ whenever
length_a ≠ length_b. -/
theorem C6_counterexample :
    dach_flaeche 10 5 30 Axis.A = dach_flaeche 10 5 30 Axis.B := by
  simp only [dach_flaeche]
  ring

/-- Claim C6 (amended): swapping the ridge axis never changes the roof
area, because (length_b / cos_pitch) × length_a and
(length_a / cos_pitch) × length_b are the same product. -/
theorem C6_roof_area_axis_independent (length_a length_b roof_pitch : ℝ) :
    dach_flaeche length_a length_b roof_pitch Axis.A
      = dach_flaeche length_a length_b roof_pitch Axis.B := by
  simp only [dach_flaeche]
  ring

/-- Claim C4 counterexample: with length_a = length_b = room_height = 1,
one floor, window area 3, the code's net wall area is −1, while the
claimed clamped value max(gross − window, 0) is 0. -/
theorem C4_counterexample :
    wandflaeche 1 1 1 1 3 = -1
      ∧ max (((1:ℝ) + 1) * 1 * ((1:ℕ):ℝ) - 3) 0 = 0
      ∧ (-1 : ℝ) ≠ 0 := by
  refine ⟨by norm_num [wandflaeche], ?_, by norm_num⟩
  rw [max_eq_right (by norm_num)]

/-- Claim C4 (amended): the net wall area equals gross wall area minus
window area with no clamping: it is negative whenever the window area
exceeds the gross wall area, and zero when they are equal. -/
theorem C4_net_wall_area_unclamped (length_a length_b room_height area_window : ℝ)
    (number_of_floors : ℕ) :
    wandflaeche length_a length_b room_height number_of_floors area_window
        = (length_a + length_b) * room_height * number_of_floors - area_window
      ∧ ((length_a + length_b) * room_height * number_of_floors < area_window →
          wandflaeche length_a length_b room_height number_of_floors area_window < 0)
      ∧ (area_window = (length_a + length_b) * room_height * number_of_floors →
          wandflaeche length_a length_b room_height number_of_floors area_window = 0) := by
  refine ⟨rfl, fun hlt => ?_, fun heq => ?_⟩
  · simp only [wandflaeche]
    linarith
  · simp only [wandflaeche, heq]
    ring

theorem C4_witness :
    ((1:ℝ) + 1) * 1 * ((1:ℕ):ℝ) < 3 ∧ wandflaeche 1 1 1 1 3 < 0 :=
  ⟨by norm_num, (C4_net_wall_area_unclamped 1 1 1 3 1).2.1 (by norm_num)⟩

/-- Claim C1 (code bug evidence): with u_floor = 1, unit footprint, two
floors and delta_t = 1000, the code's floor heat loss is 1/2 kW, while the
claimed formula u_floor × length_a × length_b × delta_t / 1000 gives 1 kW:
the code divides by the floor count twice after multiplying the footprint
by it once, so the result is NOT independent of the number of floors. -/
theorem C1_floor_loss_at_two_floors :
    heat_loss_floor 1 1 1 2 1000 = 1 / 2
      ∧ (1:ℝ) * (1 * 1) * 1000 / 1000 = 1
      ∧ ((1:ℝ) / 2) ≠ 1 := by
  refine ⟨?_, by norm_num, by norm_num⟩
  norm_num [heat_loss_floor, grundflaeche]

/-- Claim C2 (code bug evidence): with infiltration factor 1, unit
footprint, one floor and delta_t = 1000, the code's infiltration loss is
1 kW for EVERY room height (the definition does not even take the room
height), while the claimed volumetric formula with room_height = 3 gives
3 kW: the code multiplies by the gross floor area, not the volume. -/
theorem C2_infiltration_uses_floor_area :
    heat_loss_infiltration 1 1 1 1 1000 = 1
      ∧ (1:ℝ) * (1 * 1 * 3 * 1) * 1000 / 1000 = 3
      ∧ (1:ℝ) ≠ 3 := by
  refine ⟨?_, by norm_num, by norm_num⟩
  norm_num [heat_loss_infiltration, grundflaeche]

/-- For a pitch in [0, 90) degrees, the cosine of its radian measure is
strictly positive. -/
theorem cos_radians_pos (p : ℝ) (h0 : 0 ≤ p) (h90 : p < 90) :
    0 < Real.cos (radians p) := by
  have hπ : 0 < Real.pi := Real.pi_pos
  apply Real.cos_pos_of_mem_Ioo
  constructor
  · have hnn : (0:ℝ) ≤ p * Real.pi / 180 := by positivity
    simp only [radians]
    linarith
  · simp only [radians]
    have := mul_lt_mul_of_pos_right h90 hπ
    linarith

/-- Claim C3 (amended): for roof_pitch in [0, 90), cos(radians roof_pitch)
is strictly positive, so the roof-area division never divides by zero; no
epsilon floor is applied to it — the product of the roof area and the
unmodified cosine recovers length_a × length_b exactly. -/
theorem C3_cos_positive_no_guard (roof_pitch : ℝ)
    (hp0 : 0 ≤ roof_pitch) (hp90 : roof_pitch < 90) (length_a length_b : ℝ) :
    0 < Real.cos (radians roof_pitch)
      ∧ ∀ first_achse, dach_flaeche length_a length_b roof_pitch first_achse
          * Real.cos (radians roof_pitch) = length_a * length_b := by
  have hc := cos_radians_pos roof_pitch hp0 hp90
  have hc' : Real.cos (radians roof_pitch) ≠ 0 := ne_of_gt hc
  refine ⟨hc, fun ax => ?_⟩
  cases ax
  · simp only [dach_flaeche]
    field_simp
    ring
  · simp only [dach_flaeche]
    field_simp

theorem C3_witness :
    (0:ℝ) ≤ 30 ∧ (30:ℝ) < 90
      ∧ (0 < Real.cos (radians 30)
          ∧ ∀ first_achse, dach_flaeche 2 3 30 first_achse
              * Real.cos (radians 30) = 2 * 3) :=
  ⟨by norm_num, by norm_num,
   C3_cos_positive_no_guard 30 (by norm_num) (by norm_num) 2 3⟩

/-- Claim C3 refutation: the roof area is unbounded over
roof_pitch ∈ [0, 90) — no positive epsilon floor on cos(pitch) exists in
the code, since such a floor would bound (length_b / cos_pitch) × length_a
by length_b × length_a / ε uniformly; the division does blow up as the
pitch approaches 90°. -/
theorem C3_counterexample :
    ¬ ∃ M : ℝ, ∀ p : ℝ, 0 ≤ p → p < 90 → dach_flaeche 1 1 p Axis.A ≤ M := by
  rintro ⟨M, hM⟩
  have hπ : 0 < Real.pi := Real.pi_pos
  set K : ℝ := max M 1 with hK
  have hK1 : (1:ℝ) ≤ K := le_max_right M 1
  have hKM : M ≤ K := le_max_left M 1
  have hKpos : (0:ℝ) < K := lt_of_lt_of_le one_pos hK1
  have hδpos : 0 < 1 / K := by positivity
  have hδ1 : 1 / K ≤ 1 := by
    rw [div_le_one hKpos]
    exact hK1
  have hp0 : (0:ℝ) ≤ 90 - 1 / K := by linarith
  have hp90 : (90:ℝ) - 1 / K < 90 := by linarith
  have harg : radians (90 - 1 / K) = Real.pi / 2 - 1 / K * Real.pi / 180 := by
    simp only [radians]
    ring
  have hcos : Real.cos (radians (90 - 1 / K)) = Real.sin (1 / K * Real.pi / 180) := by
    rw [harg, Real.cos_pi_div_two_sub]
  have hargpos : 0 < 1 / K * Real.pi / 180 := by positivity
  have hsinpos : 0 < Real.sin (1 / K * Real.pi / 180) := by
    apply Real.sin_pos_of_pos_of_lt_pi hargpos
    nlinarith [mul_nonneg (sub_nonneg.mpr hδ1) hπ.le]
  have hsinle : Real.sin (1 / K * Real.pi / 180) ≤ 1 / K * Real.pi / 180 :=
    Real.sin_le hargpos.le
  have hdach : dach_flaeche 1 1 (90 - 1 / K) Axis.A
      = 1 / Real.sin (1 / K * Real.pi / 180) := by
    simp only [dach_flaeche, hcos, mul_one]
  have hineq : 1 / (1 / K * Real.pi / 180) ≤ 1 / Real.sin (1 / K * Real.pi / 180) :=
    one_div_le_one_div_of_le hsinpos hsinle
  have hflip : 1 / K * Real.pi / 180 = Real.pi / (K * 180) := by
    rw [one_div_mul_eq_div, div_div]
  have heq : 1 / (1 / K * Real.pi / 180) = K * 180 / Real.pi := by
    rw [hflip, one_div_div]
  rw [heq] at hineq
  have hπ4 : Real.pi ≤ 4 := Real.pi_le_four
  have h45 : 45 * K ≤ K * 180 / Real.pi := by
    rw [le_div_iff₀ hπ]
    nlinarith
  have hMlt : M < 45 * K := by linarith
  have hbound := hM (90 - 1 / K) hp0 hp90
  rw [hdach] at hbound
  linarith

/-- Claim C5: `PresetTable.lookup` applied to any name outside the
enumerated label set returns exactly the record of
`PresetTable.lookup "Teilsaniert"` (fallback-to-default, never an error). -/
theorem C5_lookup_fallback (name : String)
    (h1 : name ≠ "Altbau") (h2 : name ≠ "Teilsaniert")
    (h3 : name ≠ "Neubau") (h4 : name ≠ "Passivhaus") :
    PresetTable.lookup name = PresetTable.lookup "Teilsaniert" := by
  simp [PresetTable.lookup, h1, h2, h3, h4]

theorem C5_witness :
    ("Unknown" : String) ≠ "Altbau" ∧ ("Unknown" : String) ≠ "Teilsaniert"
      ∧ ("Unknown" : String) ≠ "Neubau" ∧ ("Unknown" : String) ≠ "Passivhaus"
      ∧ PresetTable.lookup "Unknown" = PresetTable.lookup "Teilsaniert" :=
  ⟨by decide, by decide, by decide, by decide,
   C5_lookup_fallback "Unknown" (by decide) (by decide) (by decide) (by decide)⟩

/-- Claim C7: under the caller-side preconditions (positive U-values,
non-negative infiltration coefficient and delta_t, positive lengths, room
height and floor count, window area non-negative and at most the gross
wall area, and — per the data-model invariant — roof pitch in [0, 90)),
each of the five heat-loss components is non-negative. -/
theorem C7_components_nonneg
    (length_a length_b room_height : ℝ) (number_of_floors : ℕ)
    (roof_pitch : ℝ) (first_achse : Axis)
    (u_wand u_roof u_floor infiltration_factor delta_t u_window area_window : ℝ)
    (hu_wand : 0 < u_wand) (hu_roof : 0 < u_roof) (hu_floor : 0 < u_floor)
    (hu_window : 0 < u_window) (hinf : 0 ≤ infiltration_factor) (hdt : 0 ≤ delta_t)
    (ha : 0 < length_a) (hb : 0 < length_b) (_hh : 0 < room_height)
    (_hn : 1 ≤ number_of_floors) (haw : 0 ≤ area_window)
    (hawle : area_window ≤ (length_a + length_b) * room_height * number_of_floors)
    (hp0 : 0 ≤ roof_pitch) (hp90 : roof_pitch < 90) :
    0 ≤ heat_loss_wand u_wand length_a length_b room_height number_of_floors
        area_window delta_t
      ∧ 0 ≤ heat_loss_roof u_roof length_a length_b roof_pitch first_achse delta_t
      ∧ 0 ≤ heat_loss_floor u_floor length_a length_b number_of_floors delta_t
      ∧ 0 ≤ heat_loss_window u_window area_window delta_t
      ∧ 0 ≤ heat_loss_infiltration infiltration_factor length_a length_b
          number_of_floors delta_t := by
  have hc : 0 < Real.cos (radians roof_pitch) := cos_radians_pos roof_pitch hp0 hp90
  have hwf : 0 ≤ wandflaeche length_a length_b room_height number_of_floors area_window :=
    sub_nonneg.mpr hawle
  have hdach : 0 ≤ dach_flaeche length_a length_b roof_pitch first_achse := by
    cases first_achse
    · exact mul_nonneg (div_nonneg hb.le hc.le) ha.le
    · exact mul_nonneg (div_nonneg ha.le hc.le) hb.le
  have hg : 0 ≤ grundflaeche length_a length_b number_of_floors :=
    mul_nonneg (mul_nonneg ha.le hb.le) (Nat.cast_nonneg _)
  refine ⟨?_, ?_, ?_, ?_, ?_⟩
  · exact div_nonneg (mul_nonneg (mul_nonneg hu_wand.le hwf) hdt) (by norm_num)
  · exact div_nonneg (mul_nonneg (mul_nonneg hu_roof.le hdach) hdt) (by norm_num)
  · exact div_nonneg (div_nonneg (div_nonneg
      (mul_nonneg (mul_nonneg hu_floor.le hg) hdt) (Nat.cast_nonneg _))
      (by norm_num)) (Nat.cast_nonneg _)
  · exact div_nonneg (mul_nonneg (mul_nonneg hu_window.le haw) hdt) (by norm_num)
  · exact div_nonneg (mul_nonneg (mul_nonneg hinf hdt) hg) (by norm_num)

theorem C7_witness :
    (0:ℝ) < 2 ∧ (0:ℝ) < 2 ∧ (0:ℝ) < 2 ∧ (0:ℝ) < 6
      ∧ (0:ℝ) ≤ 1 / 4 ∧ (0:ℝ) ≤ 20
      ∧ (0:ℝ) < 10 ∧ (0:ℝ) < 5 ∧ (0:ℝ) < 3 ∧ 1 ≤ 1
      ∧ (0:ℝ) ≤ 25 ∧ (25:ℝ) ≤ (10 + 5) * 3 * ((1:ℕ):ℝ)
      ∧ (0:ℝ) ≤ 30 ∧ (30:ℝ) < 90
      ∧ (0 ≤ heat_loss_wand 2 10 5 3 1 25 20
          ∧ 0 ≤ heat_loss_roof 2 10 5 30 Axis.A 20
          ∧ 0 ≤ heat_loss_floor 2 10 5 1 20
          ∧ 0 ≤ heat_loss_window 6 25 20
          ∧ 0 ≤ heat_loss_infiltration (1 / 4) 10 5 1 20) := by
  refine ⟨by norm_num, by norm_num, by norm_num, by norm_num, by norm_num,
    by norm_num, by norm_num, by norm_num, by norm_num, by norm_num,
    by norm_num, by norm_num, by norm_num, by norm_num, ?_⟩
  exact C7_components_nonneg 10 5 3 1 30 Axis.A 2 2 2 (1 / 4) 20 6 25
    (by norm_num) (by norm_num) (by norm_num) (by norm_num) (by norm_num)
    (by norm_num) (by norm_num) (by norm_num) (by norm_num) (by norm_num)
    (by norm_num) (by norm_num) (by norm_num) (by norm_num)
